import Mathlib

/-!
Shallow embedding of the hotspot-scoring parts of the Threshold Urban
Planner backend (`Backend/services/hotspot_scoring_service.py`,
`Backend/services/esa_worldcover_service.py`,
`Backend/services/hotspots_service.py`).

Python floats are modelled as rationals (`ℚ`); the built-in `round`
(round-half-to-even on exact values) is `pyRound`; `np.clip` is `clip`.
Exceptions raised by external components (the pickled scaler/model, the
database, the interpreter) are modelled by explicit oracles: functions
that may raise return `Except String`, and `try/except` blocks become
matches on those results.
-/

namespace Threshold

/-- Round-half-to-even on a rational, the semantics of CPython `round`
on exactly representable values. -/
def roundHalfEven (x : ℚ) : ℤ :=
  if x - (⌊x⌋ : ℚ) < 1/2 then ⌊x⌋
  else if 1/2 < x - (⌊x⌋ : ℚ) then ⌊x⌋ + 1
  else if ⌊x⌋ % 2 = 0 then ⌊x⌋ else ⌊x⌋ + 1

/-- Python `round(x, n)` on rationals. -/
def pyRound (x : ℚ) (n : ℕ) : ℚ :=
  (roundHalfEven (x * 10 ^ n) : ℚ) / 10 ^ n

/-- `np.clip(x, lo, hi)`. -/
def clip (x lo hi : ℚ) : ℚ := max lo (min hi x)

theorem roundHalfEven_ge_floor (x : ℚ) : ⌊x⌋ ≤ roundHalfEven x := by
  unfold roundHalfEven
  split
  · exact le_refl _
  · split
    · exact le_of_lt (lt_add_one _)
    · split
      · exact le_refl _
      · exact le_of_lt (lt_add_one _)

theorem roundHalfEven_le_ceil (x : ℚ) : roundHalfEven x ≤ ⌈x⌉ := by
  unfold roundHalfEven
  by_cases hfrac : x - (⌊x⌋ : ℚ) = 0
  · have hx : x = (⌊x⌋ : ℚ) := by linarith
    have hceil : ⌈x⌉ = ⌊x⌋ := by
      rw [hx]; simp
    have h2 : x - (⌊x⌋ : ℚ) < 1/2 := by rw [hfrac]; norm_num
    simp only [if_pos h2, hceil, le_refl]
  · have hlt : (⌊x⌋ : ℚ) < x := by
      have := Int.floor_le x
      rcases lt_or_eq_of_le this with h | h
      · exact h
      · exact absurd (by linarith : x - (⌊x⌋ : ℚ) = 0) hfrac
    have hceil : ⌈x⌉ = ⌊x⌋ + 1 := by
      have hub : ⌈x⌉ ≤ ⌊x⌋ + 1 := by
        apply Int.ceil_le.mpr
        push_cast
        exact le_of_lt (Int.lt_floor_add_one x)
      have hlb : ⌊x⌋ + 1 ≤ ⌈x⌉ := by
        have h2 : x ≤ (⌈x⌉ : ℚ) := Int.le_ceil x
        have h3 : ((⌊x⌋ : ℤ) : ℚ) < ((⌈x⌉ : ℤ) : ℚ) := by linarith
        have h4 : ⌊x⌋ < ⌈x⌉ := by exact_mod_cast h3
        omega
      omega
    rw [hceil]
    split
    · omega
    · split
      · omega
      · split <;> omega

/-! ## Hotspot scoring service (`Backend/services/hotspot_scoring_service.py`) -/

/-- A Python float: NaN or a real (rational) value.  Used where NaN
semantics matters (`distance_score` on malformed distances). -/
inductive PyFloat where
  | nan : PyFloat
  | val : ℚ → PyFloat
deriving DecidableEq

/-- `x <= c` under CPython float comparison: any comparison with NaN is false. -/
def PyFloat.leQ : PyFloat → ℚ → Bool
  | .nan, _ => false
  | .val x, c => decide (x ≤ c)

/-- The inner helper `distance_score(dist, optimal, max_acceptable)` of
`_calculate_fallback_score` (hotspot_scoring_service.py lines 213-220),
on real-valued (non-NaN) inputs. -/
def distance_score (dist optimal max_acceptable : ℚ) : ℚ :=
  if dist ≤ optimal then 1
  else if dist ≤ max_acceptable then
    max 0 (1 - ((dist - optimal) / (max_acceptable - optimal)) ^ 2)
  else 0

/-- `distance_score` under full CPython float semantics: the two `<=`
guards are evaluated with NaN comparing false, so a NaN distance falls
through to the final `else` branch.  The `.nan` case inside the middle
branch is unreachable (NaN fails both guards). -/
def distanceScoreF (dist : PyFloat) (optimal max_acceptable : ℚ) : ℚ :=
  if dist.leQ optimal then 1
  else if dist.leQ max_acceptable then
    match dist with
    | .val d => max 0 (1 - ((d - optimal) / (max_acceptable - optimal)) ^ 2)
    | .nan => 0
  else 0

/-- The `distances` dict passed to the scorer: each amenity key may be
present or absent (`dict.get` with a default). -/
structure Distances where
  hospital : Option ℚ
  school : Option ℚ
  airport : Option ℚ
  bus : Option ℚ
  railway : Option ℚ
  mall : Option ℚ
deriving DecidableEq

/-- The empty `{}` distances dict. -/
def Distances.empty : Distances := ⟨none, none, none, none, none, none⟩

/-- The `breakdown` value of a score result: `{}` in the error branches,
the coarse ML approximation dict, or the eight named rule-based sub-scores. -/
inductive Breakdown where
  | empty : Breakdown
  | approx (aqi population_density : ℚ) (distances : Distances) : Breakdown
  | rule (aqi_score population_score hospital_score school_score
          bus_score railway_score mall_score airport_score : ℚ) : Breakdown
deriving DecidableEq

/-- The result dict returned by every branch of the scoring service. -/
structure ScoreResult where
  score : ℚ
  confidence : ℚ
  method : String
  breakdown : Breakdown
  error : Option String
  model_type : Option String
deriving DecidableEq

/-- The `aqi_score` block of `_calculate_fallback_score` (lines 189-198). -/
def aqi_score (aqi : ℚ) : ℚ :=
  if aqi ≤ 50 then 1
  else if aqi ≤ 100 then 0.8
  else if aqi ≤ 150 then 0.5
  else if aqi ≤ 200 then 0.3
  else 0.1

/-- The `pop_score` block of `_calculate_fallback_score` (lines 201-210). -/
def pop_score (population_density : ℚ) : ℚ :=
  if population_density < 1000 then 0.2
  else if population_density < 5000 then 0.6
  else if population_density < 15000 then 1
  else if population_density < 25000 then 0.8
  else 0.4

/-- The weighted sum of `_calculate_fallback_score` (lines 230-239). -/
def fallback_weighted_sum (aqi population_density : ℚ) (distances : Distances) : ℚ :=
  aqi_score aqi * 0.25 +
  pop_score population_density * 0.20 +
  distance_score (distances.hospital.getD 10) 2 10 * 0.15 +
  distance_score (distances.school.getD 8) 1 8 * 0.15 +
  distance_score (distances.bus.getD 5) 0.5 3 * 0.10 +
  distance_score (distances.railway.getD 15) 2 15 * 0.05 +
  distance_score (distances.mall.getD 10) 1.5 10 * 0.08 +
  distance_score (distances.airport.getD 30) 15 45 * 0.02

/-- The result dict built by the `try` body of `_calculate_fallback_score`
(lines 184-257). -/
def fallback_ok_result (aqi population_density : ℚ) (distances : Distances) : ScoreResult :=
  { score := pyRound (max 0 (min 1 (fallback_weighted_sum aqi population_density distances))) 4
    confidence := 0.7
    method := "rule_based_fallback"
    breakdown := .rule
      (pyRound (aqi_score aqi) 3)
      (pyRound (pop_score population_density) 3)
      (pyRound (distance_score (distances.hospital.getD 10) 2 10) 3)
      (pyRound (distance_score (distances.school.getD 8) 1 8) 3)
      (pyRound (distance_score (distances.bus.getD 5) 0.5 3) 3)
      (pyRound (distance_score (distances.railway.getD 15) 2 15) 3)
      (pyRound (distance_score (distances.mall.getD 10) 1.5 10) 3)
      (pyRound (distance_score (distances.airport.getD 30) 15 45) 3)
    error := none
    model_type := none }

/-- `_calculate_fallback_score` with its `try/except` wrapper (lines 259-267);
the oracle `raises` says whether the Python interpreter raises inside the
`try` body (the body is pure arithmetic, so in the model the raising case is
an external oracle). -/
def calculate_fallback_score (raises : Option String)
    (aqi population_density : ℚ) (distances : Distances) : ScoreResult :=
  match raises with
  | some e =>
      { score := 0.5, confidence := 0, method := "error",
        breakdown := .empty, error := some e, model_type := none }
  | none => fallback_ok_result aqi population_density distances

/-- Environment of the service: the pickled model/scaler and the
exception oracles. `scaler_transform` and `predict` may raise
(`Except.error`), modelling any failure during ML inference. -/
structure MLEnv where
  model_ready : Bool
  scaler_transform : List ℚ → Except String (List ℚ)
  predict : List ℚ → Except String ℚ
  confidence : ℚ
  model_type : String
  fallback_raises : Option String
  outer_raises : Option String

/-- The feature vector of `_calculate_ml_score` (lines 135-144): fixed
order with fixed defaults for missing keys. -/
def ml_features (aqi population_density : ℚ) (distances : Distances) : List ℚ :=
  [aqi,
   population_density,
   distances.hospital.getD 10,
   distances.school.getD 8,
   distances.airport.getD 30,
   distances.bus.getD 5,
   distances.railway.getD 15,
   distances.mall.getD 10]

/-- The fallible part of ML inference: scaler transform then predict
(lines 146-150). -/
def ml_inference (env : MLEnv) (aqi population_density : ℚ)
    (distances : Distances) : Except String ℚ := do
  let scaled ← env.scaler_transform (ml_features aqi population_density distances)
  env.predict scaled

/-- `_calculate_ml_score` (lines 121-176): on success, clip the raw
prediction to [0,1]; on any exception, fall back to the rule-based tier. -/
def calculate_ml_score (env : MLEnv) (aqi population_density : ℚ)
    (distances : Distances) : ScoreResult :=
  match ml_inference env aqi population_density distances with
  | .ok raw =>
      { score := clip raw 0 1
        confidence := env.confidence
        method := "ml_model"
        breakdown := .approx aqi population_density distances
        error := none
        model_type := some env.model_type }
  | .error _ => calculate_fallback_score env.fallback_raises aqi population_density distances

/-- `calculate_hotspot_score` (lines 89-119): dispatch on model readiness,
with an outer `try/except` producing the `error_fallback` result; the
oracle `outer_raises` models an exception outside both tiers. -/
def calculate_hotspot_score (env : MLEnv) (aqi population_density : ℚ)
    (distances : Distances) : ScoreResult :=
  match env.outer_raises with
  | some e =>
      { score := 0.5, confidence := 0, method := "error_fallback",
        breakdown := .empty, error := some e, model_type := none }
  | none =>
      if env.model_ready then calculate_ml_score env aqi population_density distances
      else calculate_fallback_score env.fallback_raises aqi population_density distances

/-- One element of the `locations` list of `calculate_batch_scores`:
the three optional keys read with `.get`, plus the oracle saying whether
scoring this location raises (the per-location `try/except`, lines 299-315). -/
structure LocationInput where
  aqi : Option ℚ
  population_density : Option ℚ
  distances : Option Distances
  raises : Option String

/-- One entry of the batch result list (`score_result['location_index'] = i`). -/
structure BatchEntry where
  location_index : ℕ
  result : ScoreResult
deriving DecidableEq

/-- `calculate_batch_scores` (lines 283-318). -/
def calculate_batch_scores (env : MLEnv) (locations : List LocationInput) : List BatchEntry :=
  locations.enum.map fun p =>
    match p.2.raises with
    | some e =>
        ⟨p.1, { score := 0.5, confidence := 0, method := "error",
                breakdown := .empty, error := some e, model_type := none }⟩
    | none =>
        ⟨p.1, calculate_hotspot_score env (p.2.aqi.getD 100)
              (p.2.population_density.getD 5000) (p.2.distances.getD Distances.empty)⟩

/-! ## ESA WorldCover hotspot score (`Backend/services/esa_worldcover_service.py`) -/

/-- The score arithmetic of `_calculate_real_hotspot_score`
(esa_worldcover_service.py lines 624-635): 0-100 rescale, capped area
bonus, cap at 100, round to 1 decimal. -/
def real_hotspot_final_score (facade_score area_m2 : ℚ) : ℚ :=
  let score_0_100 := facade_score * 100
  let area_bonus := min 20 (area_m2 / 50000 * 10)
  let final_score := min 100 (score_0_100 + area_bonus)
  pyRound final_score 1

/-! ## AOI overlap cache matcher (`Backend/services/hotspots_service.py`)

Shapely polygons are modelled as finite sets of unit cells: `.area` is
the cell count, `.intersection`/`.union` are set intersection/union, and
Mongo's `$geoIntersects` coarse filter is non-empty intersection.  Dates
are integer day counts. -/

/-- Geometry: a finite set of unit cells. -/
abbrev Geom := Finset (ℤ × ℤ)

/-- Shapely `.area` of a modelled geometry. -/
def geomArea (g : Geom) : ℚ := (g.card : ℚ)

/-- A document of the `aoi_cache` collection (the fields the matcher reads). -/
structure AOICacheRecord where
  aoi_geometry : Geom
  analysis_date : ℤ
deriving DecidableEq

/-- `overlap_ratio = intersection_area / union_area if union_area > 0 else 0`
(hotspots_service.py lines 66-71). -/
def overlap_ratio (a b : Geom) : ℚ :=
  if 0 < geomArea (a ∪ b) then geomArea (a ∩ b) / geomArea (a ∪ b) else 0

/-- `find_overlapping_cache` (hotspots_service.py lines 30-85): the Mongo
query keeps records that geometrically intersect the AOI and whose
`analysis_date` is within the last 30 days; the loop returns the FIRST
record whose overlap ratio meets the threshold, else `None`.  `records`
is the collection in cursor order; `now` is `datetime.utcnow()` in days. -/
def find_overlapping_cache (now : ℤ) (records : List AOICacheRecord)
    (aoi_geometry : Geom) (overlap_threshold : ℚ) : Option AOICacheRecord :=
  let cursor := records.filter fun r =>
    decide (r.aoi_geometry ∩ aoi_geometry).Nonempty && decide (now - 30 ≤ r.analysis_date)
  cursor.find? fun r => decide (overlap_threshold ≤ overlap_ratio aoi_geometry r.aoi_geometry)

/-! ## Shared bound lemmas -/

theorem roundHalfEven_nonneg {x : ℚ} (h : 0 ≤ x) : 0 ≤ roundHalfEven x :=
  le_trans (Int.le_floor.mpr (by exact_mod_cast h)) (roundHalfEven_ge_floor x)

theorem roundHalfEven_le_intCast {x : ℚ} {m : ℤ} (h : x ≤ (m : ℚ)) :
    roundHalfEven x ≤ m :=
  le_trans (roundHalfEven_le_ceil x) (Int.ceil_le.mpr h)

theorem pyRound_nonneg {x : ℚ} (n : ℕ) (h : 0 ≤ x) : 0 ≤ pyRound x n := by
  unfold pyRound
  apply div_nonneg _ (by positivity)
  exact_mod_cast roundHalfEven_nonneg (by positivity)

theorem pyRound_le_intCast {x : ℚ} (n : ℕ) (m : ℤ) (h : x ≤ (m : ℚ)) :
    pyRound x n ≤ (m : ℚ) := by
  unfold pyRound
  rw [div_le_iff₀ (by positivity : (0:ℚ) < 10 ^ n)]
  have hr : roundHalfEven (x * 10 ^ n) ≤ m * 10 ^ n := by
    apply roundHalfEven_le_intCast
    push_cast
    exact mul_le_mul_of_nonneg_right h (by positivity)
  exact_mod_cast hr

theorem clip_mem {x lo hi : ℚ} (h : lo ≤ hi) :
    lo ≤ clip x lo hi ∧ clip x lo hi ≤ hi := by
  unfold clip
  constructor
  · exact le_max_left _ _
  · exact max_le h (min_le_left _ _)

/-- The clamped-and-rounded fallback score is in [0,1], whatever the
weighted sum is. -/
theorem fallback_score_mem (aqi population_density : ℚ) (distances : Distances) :
    0 ≤ (fallback_ok_result aqi population_density distances).score ∧
    (fallback_ok_result aqi population_density distances).score ≤ 1 := by
  unfold fallback_ok_result
  constructor
  · exact pyRound_nonneg 4 (le_max_left _ _)
  · have h1 : max 0 (min 1 (fallback_weighted_sum aqi population_density distances)) ≤ 1 :=
      max_le (by norm_num) (min_le_left _ _)
    have := pyRound_le_intCast 4 1 (by exact_mod_cast h1)
    simpa using this

/-! ## Claims -/

/-- C4: the distance-decay function returns 1.0 at or below `optimal`,
`max 0 (1 - t^2)` with `t = (dist - optimal)/(max_acceptable - optimal)`
strictly between `optimal` and `max_acceptable`, and 0.0 beyond
`max_acceptable`. -/
theorem distance_score_piecewise (dist optimal max_acceptable : ℚ)
    (h : optimal < max_acceptable) :
    (dist ≤ optimal → distance_score dist optimal max_acceptable = 1) ∧
    (optimal < dist → dist ≤ max_acceptable →
      distance_score dist optimal max_acceptable =
        max 0 (1 - ((dist - optimal) / (max_acceptable - optimal)) ^ 2)) ∧
    (max_acceptable < dist → distance_score dist optimal max_acceptable = 0) := by
  refine ⟨fun h1 => ?_, fun h1 h2 => ?_, fun h1 => ?_⟩
  · simp [distance_score, h1]
  · rw [distance_score, if_neg (by linarith), if_pos h2]
  · rw [distance_score, if_neg (by linarith), if_neg (by linarith)]

/-- Witness for C4 at the airport parameters (15, 45) and distance 20. -/
theorem distance_score_piecewise_witness :
    distance_score 20 15 45 = max 0 (1 - ((20 - 15) / (45 - 15)) ^ 2) :=
  (distance_score_piecewise 20 15 45 (by norm_num)).2.1 (by norm_num) (by norm_num)

/-- C8 counterexample: a negative distance satisfies the first guard
`dist <= optimal`, so the sub-score is 1.0, not the 0 the claim demands. -/
theorem distance_score_neg_counterexample :
    distanceScoreF (.val (-1)) 2 10 = 1 ∧ distanceScoreF (.val (-1)) 2 10 ≠ 0 := by
  have h : distanceScoreF (.val (-1)) 2 10 = 1 := by
    rw [distanceScoreF, if_pos]
    simp [PyFloat.leQ]
    norm_num
  exact ⟨h, by rw [h]; norm_num⟩

/-- C8 amended: a NaN distance fails both comparisons and yields
sub-score 0 without an exception; a negative distance (with the
service's nonnegative `optimal` parameters) satisfies `dist <= optimal`
and yields sub-score 1.0, not 0; the computation is total either way. -/
theorem distance_score_malformed (optimal max_acceptable : ℚ) :
    distanceScoreF .nan optimal max_acceptable = 0 ∧
    (∀ d : ℚ, d < 0 → 0 ≤ optimal →
      distanceScoreF (.val d) optimal max_acceptable = 1) := by
  constructor
  · rw [distanceScoreF]
    simp [PyFloat.leQ]
  · intro d h1 h2
    rw [distanceScoreF, if_pos]
    simp only [PyFloat.leQ, decide_eq_true_eq]
    linarith

/-- Witness for C8's amended statement at the hospital parameters (2, 10). -/
theorem distance_score_malformed_witness :
    distanceScoreF .nan 2 10 = 0 ∧ distanceScoreF (.val (-1)) 2 10 = 1 :=
  ⟨(distance_score_malformed 2 10).1,
   (distance_score_malformed 2 10).2 (-1) (by norm_num) (by norm_num)⟩

/-- C1: on the non-raising path, the rule-based scorer returns exactly the
weighted sum aqi*0.25 + population*0.20 + hospital*0.15 + school*0.15 +
bus*0.10 + railway*0.05 + mall*0.08 + airport*0.02 clamped to [0,1] and
rounded to 4 decimals, with method `rule_based_fallback`, confidence 0.7,
and all eight named sub-scores rounded to 3 decimals in the breakdown. -/
theorem calculate_fallback_score_spec (aqi population_density : ℚ) (distances : Distances) :
    calculate_fallback_score none aqi population_density distances =
      { score := pyRound (max 0 (min 1
          (aqi_score aqi * 0.25 +
           pop_score population_density * 0.20 +
           distance_score (distances.hospital.getD 10) 2 10 * 0.15 +
           distance_score (distances.school.getD 8) 1 8 * 0.15 +
           distance_score (distances.bus.getD 5) 0.5 3 * 0.10 +
           distance_score (distances.railway.getD 15) 2 15 * 0.05 +
           distance_score (distances.mall.getD 10) 1.5 10 * 0.08 +
           distance_score (distances.airport.getD 30) 15 45 * 0.02))) 4
        confidence := 0.7
        method := "rule_based_fallback"
        breakdown := .rule
          (pyRound (aqi_score aqi) 3)
          (pyRound (pop_score population_density) 3)
          (pyRound (distance_score (distances.hospital.getD 10) 2 10) 3)
          (pyRound (distance_score (distances.school.getD 8) 1 8) 3)
          (pyRound (distance_score (distances.bus.getD 5) 0.5 3) 3)
          (pyRound (distance_score (distances.railway.getD 15) 2 15) 3)
          (pyRound (distance_score (distances.mall.getD 10) 1.5 10) 3)
          (pyRound (distance_score (distances.airport.getD 30) 15 45) 3)
        error := none
        model_type := none } := rfl

/-- C2: any exception during ML inference is caught and the rule-based
result is returned; if the rule-based tier itself raises, the result has
score 0.5, confidence 0.0 and method `error`.  Both tiers return a
`ScoreResult` value (never an exception) by construction. -/
theorem scoring_error_recovery (env : MLEnv) (aqi population_density : ℚ)
    (distances : Distances) :
    (env.outer_raises = none → env.model_ready = true →
      ∀ e, ml_inference env aqi population_density distances = .error e →
        calculate_hotspot_score env aqi population_density distances =
          calculate_fallback_score env.fallback_raises aqi population_density distances) ∧
    (∀ e, calculate_fallback_score (some e) aqi population_density distances =
      { score := 0.5, confidence := 0, method := "error",
        breakdown := .empty, error := some e, model_type := none }) := by
  constructor
  · intro houter hready e herr
    rw [calculate_hotspot_score, houter]
    simp only [hready, if_true]
    rw [calculate_ml_score, herr]
  · intro e
    rfl

/-- Witness for C2: an environment whose scaler raises falls back to the
rule-based result, and a raising rule-based tier yields the error result. -/
theorem scoring_error_recovery_witness :
    (calculate_hotspot_score
        ⟨true, fun _ => .error "boom", fun _ => .error "boom", 0.9, "GBR", none, none⟩
        45 5000 Distances.empty =
      calculate_fallback_score none 45 5000 Distances.empty) ∧
    (calculate_fallback_score (some "oops") 45 5000 Distances.empty =
      { score := 0.5, confidence := 0, method := "error",
        breakdown := .empty, error := some "oops", model_type := none }) :=
  ⟨(scoring_error_recovery
      ⟨true, fun _ => .error "boom", fun _ => .error "boom", 0.9, "GBR", none, none⟩
      45 5000 Distances.empty).1 rfl rfl "boom" rfl,
   (scoring_error_recovery
      ⟨true, fun _ => .error "boom", fun _ => .error "boom", 0.9, "GBR", none, none⟩
      45 5000 Distances.empty).2 "oops"⟩

/-- C3: in every branch (ml_model, rule_based_fallback, error, and the
outer error_fallback), the score field lies in [0,1]. -/
theorem hotspot_score_in_unit_interval (env : MLEnv) (aqi population_density : ℚ)
    (distances : Distances) :
    0 ≤ (calculate_hotspot_score env aqi population_density distances).score ∧
    (calculate_hotspot_score env aqi population_density distances).score ≤ 1 := by
  have hfb : ∀ r : Option String,
      0 ≤ (calculate_fallback_score r aqi population_density distances).score ∧
      (calculate_fallback_score r aqi population_density distances).score ≤ 1 := by
    intro r
    match r with
    | some e => exact ⟨by norm_num [calculate_fallback_score], by norm_num [calculate_fallback_score]⟩
    | none => exact fallback_score_mem aqi population_density distances
  rw [calculate_hotspot_score]
  match houter : env.outer_raises with
  | some e => exact ⟨by norm_num, by norm_num⟩
  | none =>
    by_cases hready : env.model_ready
    · simp only [hready, if_true]
      rw [calculate_ml_score]
      match hml : ml_inference env aqi population_density distances with
      | .ok raw =>
        have := @clip_mem raw 0 1 (by norm_num)
        exact ⟨this.1, this.2⟩
      | .error e => exact hfb env.fallback_raises
    · simp only [hready, if_false]
      exact hfb env.fallback_raises

/-- C5: the final parcel score is `min(100, score*100 + min(20, area/50000*10))`
rounded to 1 decimal, never exceeds 100, and in particular base 95 with the
full area bonus of 20 yields exactly 100, not 115. -/
theorem real_hotspot_score_spec (facade_score area_m2 : ℚ) :
    real_hotspot_final_score facade_score area_m2 =
      pyRound (min 100 (facade_score * 100 + min 20 (area_m2 / 50000 * 10))) 1 ∧
    real_hotspot_final_score facade_score area_m2 ≤ 100 ∧
    real_hotspot_final_score 0.95 100000 = 100 := by
  refine ⟨rfl, ?_, ?_⟩
  · have h := @pyRound_le_intCast (min 100 (facade_score * 100 + min 20 (area_m2 / 50000 * 10)))
      1 100 (by exact_mod_cast min_le_left _ _)
    rw [real_hotspot_final_score]
    exact_mod_cast h
  · rw [real_hotspot_final_score]
    norm_num [pyRound, roundHalfEven, min_def]

/-- C7: with the model ready and neither the scaler nor predict raising,
the feature vector is exactly [AQI, PopulationDensity, DistHospital,
DistSchool, DistAirport, DistBus, DistRailway, DistMall] with defaults
hospital 10, school 8, airport 30, bus 5, railway 15, mall 10, and the
result is the scaled-then-predicted raw value clipped to [0,1]. -/
theorem ml_score_spec (env : MLEnv) (aqi population_density : ℚ)
    (distances : Distances) (scaled : List ℚ) (raw : ℚ)
    (houter : env.outer_raises = none) (hready : env.model_ready = true)
    (hs : env.scaler_transform (ml_features aqi population_density distances) = .ok scaled)
    (hp : env.predict scaled = .ok raw) :
    ml_features aqi population_density distances =
      [aqi, population_density,
       distances.hospital.getD 10, distances.school.getD 8,
       distances.airport.getD 30, distances.bus.getD 5,
       distances.railway.getD 15, distances.mall.getD 10] ∧
    calculate_hotspot_score env aqi population_density distances =
      { score := clip raw 0 1
        confidence := env.confidence
        method := "ml_model"
        breakdown := .approx aqi population_density distances
        error := none
        model_type := some env.model_type } := by
  refine ⟨rfl, ?_⟩
  have hinf : ml_inference env aqi population_density distances = .ok raw := by
    rw [ml_inference, hs]
    exact hp
  rw [calculate_hotspot_score, houter]
  simp only [hready, if_true]
  rw [calculate_ml_score, hinf]

/-- Witness for C7: identity scaler, constant prediction 2, clipped to 1. -/
theorem ml_score_spec_witness :
    calculate_hotspot_score
        ⟨true, fun l => .ok l, fun _ => .ok 2, 0.85, "GBR", none, none⟩
        45 5000 Distances.empty =
      { score := clip 2 0 1
        confidence := 0.85
        method := "ml_model"
        breakdown := .approx 45 5000 Distances.empty
        error := none
        model_type := some "GBR" } :=
  (ml_score_spec ⟨true, fun l => .ok l, fun _ => .ok 2, 0.85, "GBR", none, none⟩
    45 5000 Distances.empty (ml_features 45 5000 Distances.empty) 2
    rfl rfl rfl rfl).2

/-- The distances of the spec's end-to-end scenario:
hospital 1.5, school 0.8, bus 0.3, railway 2.0, mall 1.2, airport 20. -/
def scenario_distances : Distances :=
  { hospital := some 1.5, school := some 0.8, airport := some 20,
    bus := some 0.3, railway := some 2, mall := some 1.2 }

/-- C9 counterexample: at aqi=45, population_density=12000 and the
scenario distances the rule-based score is exactly 0.9994, which is NOT
in the claimed 0.85-0.95 band. -/
theorem scenario_score_band_counterexample :
    (calculate_fallback_score none 45 12000 scenario_distances).score = 0.9994 ∧
    ¬ (calculate_fallback_score none 45 12000 scenario_distances).score ≤ 0.95 := by
  have h : (calculate_fallback_score none 45 12000 scenario_distances).score = 0.9994 := by
    norm_num [calculate_fallback_score, fallback_ok_result, fallback_weighted_sum,
      aqi_score, pop_score, distance_score, scenario_distances, pyRound, roundHalfEven,
      min_def, max_def]
  rw [h]
  norm_num

/-- C9 amended: the score at the scenario input is the exact weighted sum
(all sub-scores 1.0 except airport = 35/36) clamped and rounded, namely
0.9994 — in the excellent range but above the 0.95 upper edge. -/
theorem scenario_score_exact :
    (calculate_fallback_score none 45 12000 scenario_distances).score = 0.9994 ∧
    pyRound (1 * 0.25 + 1 * 0.20 + 1 * 0.15 + 1 * 0.15 + 1 * 0.10 + 1 * 0.05 +
      1 * 0.08 + 35/36 * 0.02) 4 = 0.9994 := by
  constructor
  · norm_num [calculate_fallback_score, fallback_ok_result, fallback_weighted_sum,
      aqi_score, pop_score, distance_score, scenario_distances, pyRound, roundHalfEven,
      min_def, max_def]
  · norm_num [pyRound, roundHalfEven]

/-- C10: batch scoring returns one entry per location in order, each
tagged with its index; a location whose scoring raises contributes the
score-0.5/confidence-0/method-`error` entry without affecting any other
entry, which depends only on that location. -/
theorem batch_scores_spec (env : MLEnv) (locations : List LocationInput) :
    (calculate_batch_scores env locations).length = locations.length ∧
    ∀ i : ℕ,
      (calculate_batch_scores env locations)[i]? =
        (locations[i]?).map fun loc =>
          match loc.raises with
          | some e =>
              ⟨i, { score := 0.5, confidence := 0, method := "error",
                    breakdown := .empty, error := some e, model_type := none }⟩
          | none =>
              ⟨i, calculate_hotspot_score env (loc.aqi.getD 100)
                  (loc.population_density.getD 5000) (loc.distances.getD Distances.empty)⟩ := by
  constructor
  · simp [calculate_batch_scores]
  · intro i
    simp only [calculate_batch_scores, List.getElem?_map, List.getElem?_enum]
    cases locations[i]? <;> rfl

/-- A record qualifies for the cache match: it passes the coarse
`$geoIntersects` filter, the 30-day recency filter, and the overlap
threshold. -/
def cache_match_ok (now : ℤ) (aoi_geometry : Geom) (overlap_threshold : ℚ)
    (r : AOICacheRecord) : Prop :=
  (r.aoi_geometry ∩ aoi_geometry).Nonempty ∧
  now - 30 ≤ r.analysis_date ∧
  overlap_threshold ≤ overlap_ratio aoi_geometry r.aoi_geometry

instance (now : ℤ) (aoi_geometry : Geom) (overlap_threshold : ℚ) (r : AOICacheRecord) :
    Decidable (cache_match_ok now aoi_geometry overlap_threshold r) := by
  unfold cache_match_ok
  infer_instance

/-- C6: the matcher returns only records within the 30-day window whose
intersection/union ratio meets the threshold; it returns `none` exactly
when no record qualifies; it returns the FIRST qualifying record in
cursor order (not the best); identical geometries have ratio 1, disjoint
ones ratio 0; and a record older than 30 days is never returned. -/
theorem find_overlapping_cache_spec (now : ℤ) (records : List AOICacheRecord)
    (aoi_geometry : Geom) (overlap_threshold : ℚ) :
    (∀ r, find_overlapping_cache now records aoi_geometry overlap_threshold = some r →
       r ∈ records ∧ now - 30 ≤ r.analysis_date ∧
       overlap_threshold ≤ overlap_ratio aoi_geometry r.aoi_geometry) ∧
    (find_overlapping_cache now records aoi_geometry overlap_threshold = none ↔
       ∀ r ∈ records, ¬ cache_match_ok now aoi_geometry overlap_threshold r) ∧
    (∀ pre r post, records = pre ++ r :: post →
       cache_match_ok now aoi_geometry overlap_threshold r →
       (∀ rp ∈ pre, ¬ cache_match_ok now aoi_geometry overlap_threshold rp) →
       find_overlapping_cache now records aoi_geometry overlap_threshold = some r) ∧
    (∀ g : Geom, g.Nonempty → overlap_ratio g g = 1) ∧
    (∀ a b : Geom, a ∩ b = ∅ → overlap_ratio a b = 0) ∧
    (∀ r, r.analysis_date < now - 30 →
       find_overlapping_cache now records aoi_geometry overlap_threshold ≠ some r) := by
  have ha : ∀ r, find_overlapping_cache now records aoi_geometry overlap_threshold = some r →
      r ∈ records ∧ now - 30 ≤ r.analysis_date ∧
      overlap_threshold ≤ overlap_ratio aoi_geometry r.aoi_geometry := by
    intro r h
    rw [find_overlapping_cache] at h
    have hp := List.find?_some h
    have hm := List.mem_of_find?_eq_some h
    rw [List.mem_filter] at hm
    simp only [Bool.and_eq_true, decide_eq_true_eq] at hp hm
    exact ⟨hm.1, hm.2.2, hp⟩
  refine ⟨ha, ?_, ?_, ?_, ?_, ?_⟩
  · rw [find_overlapping_cache, List.find?_eq_none]
    constructor
    · intro h r hr hok
      obtain ⟨h1, h2, h3⟩ := hok
      have hmem : r ∈ records.filter fun r =>
          decide (r.aoi_geometry ∩ aoi_geometry).Nonempty &&
          decide (now - 30 ≤ r.analysis_date) :=
        List.mem_filter.mpr ⟨hr, by simp [h1, h2]⟩
      have := h r hmem
      simp only [decide_eq_true_eq] at this
      exact this h3
    · intro h x hx
      rw [List.mem_filter] at hx
      simp only [Bool.and_eq_true, decide_eq_true_eq] at hx
      simp only [decide_eq_true_eq]
      intro hpx
      exact h x hx.1 ⟨hx.2.1, hx.2.2, hpx⟩
  · intro pre r post hrec hok hpre
    subst hrec
    rw [find_overlapping_cache, List.filter_append, List.find?_append]
    have hqr : (decide (r.aoi_geometry ∩ aoi_geometry).Nonempty &&
        decide (now - 30 ≤ r.analysis_date)) = true := by
      simp [hok.1, hok.2.1]
    have hfilpre : List.find?
        (fun r => decide (overlap_threshold ≤ overlap_ratio aoi_geometry r.aoi_geometry))
        (List.filter (fun r =>
          decide (r.aoi_geometry ∩ aoi_geometry).Nonempty &&
          decide (now - 30 ≤ r.analysis_date)) pre) = none := by
      rw [List.find?_eq_none]
      intro x hx
      rw [List.mem_filter] at hx
      simp only [Bool.and_eq_true, decide_eq_true_eq] at hx
      simp only [decide_eq_true_eq]
      intro hpx
      exact hpre x hx.1 ⟨hx.2.1, hx.2.2, hpx⟩
    rw [hfilpre, Option.none_or, List.filter_cons, if_pos hqr]
    exact List.find?_cons_of_pos _ (by simp [hok.2.2])
  · intro g hg
    have hc : (0:ℚ) < (g.card : ℚ) := by exact_mod_cast Finset.card_pos.mpr hg
    rw [overlap_ratio, geomArea, geomArea, Finset.union_self, Finset.inter_self, if_pos hc]
    exact div_self hc.ne'
  · intro a b hab
    rw [overlap_ratio, geomArea, geomArea, hab]
    split
    · simp
    · rfl
  · intro r hold h
    have := (ha r h).2.1
    omega

/-- Witness record for C6: a one-cell geometry analysed 10 days ago. -/
def witness_record : AOICacheRecord := ⟨{((0:ℤ), (0:ℤ))}, 90⟩

/-- Witness for C6: with `now = 100`, a single fresh identical record is
returned at threshold 0.8. -/
theorem find_overlapping_cache_spec_witness :
    find_overlapping_cache 100 [witness_record] {((0:ℤ), (0:ℤ))} 0.8 =
      some witness_record := by
  have h := find_overlapping_cache_spec 100 [witness_record] {((0:ℤ), (0:ℤ))} 0.8
  apply h.2.2.1 [] witness_record [] rfl
  · refine ⟨?_, by norm_num [witness_record], ?_⟩
    · rw [witness_record]
      rw [Finset.inter_self]
      exact Finset.singleton_nonempty _
    · rw [witness_record]
      rw [h.2.2.2.1 {((0:ℤ), (0:ℤ))} (Finset.singleton_nonempty _)]
      norm_num
  · intro rp hrp
    exact absurd hrp (List.not_mem_nil rp)

end Threshold
